import Mathlib

/-
Shallow embedding of src/fitbit_tracker.py (class FitbitNotionTracker and main).
Network interaction is modelled by passing the outcomes of the HTTP calls
(status code plus parsed JSON body, or a network-level failure) as explicit
arguments; the Python functions are translated line by line into pure Lean
functions over those outcome values.  Python exceptions are modelled by the
PyExc type; a value of type Except PyExc A is the result of a Python call that
may raise.  Machine integers do not occur (the script only moves JSON numbers
around), so numeric metric values are modelled as Int.
-/

namespace FT

/-- A Python value that can appear as a flattened metric: the script puts both
numbers and (for a missing weight log id) the empty string into the outgoing
property map. -/
inductive PyVal where
  | int (n : Int)
  | str (s : String)
deriving DecidableEq

/-- Python exceptions raised (or caught) by fitbit_tracker.py.  The
isRequestException predicate below mirrors which of them the except
requests.exceptions.RequestException clauses catch; Response.json failures
raise requests.exceptions.JSONDecodeError, a RequestException subclass. -/
inductive PyExc where
  | keyError (key : String)
  | valueError (msg : String)
  | indexError
  | httpError (status : Nat)
  | requestException (msg : String)
  | typeError
  | genericError (msg : String)
deriving DecidableEq

/-- Which exceptions are requests.exceptions.RequestException (and are hence
caught by the except clauses in refresh_fitbit_token and
_make_fitbit_request). -/
def isRequestException : PyExc → Bool
  | .httpError _ => true
  | .requestException _ => true
  | _ => false

/-- Parsed JSON body of a response of the Fitbit token endpoint
(https://api.fitbit.com/oauth2/token).  access_token and refresh_token model
the optional top-level string fields; errors models the optional errors array,
each element reduced to its optional errorType field (the only part the code
reads, via errors[0].get("errorType", "")). -/
structure TokenBody where
  access_token : Option String
  refresh_token : Option String
  errors : Option (List (Option String))
deriving DecidableEq

/-- Outcome of one requests.post to the token endpoint: either a response with
a status code and a parsed body (none models a body that is not valid JSON, in
which case response.json() raises a RequestException, requests being at least
version 2.27), or a network-level RequestException raised by the post itself. -/
inductive TokenAttempt where
  | resp (status : Nat) (body : Option TokenBody)
  | netErr (msg : String)
deriving DecidableEq

/-- The mutable state refresh_fitbit_token can write: the tracker field
self.fitbit_refresh_token and the process environment variable
FITBIT_REFRESH_TOKEN (both assigned together when a 200 body carries a
refresh_token). -/
structure RefreshState where
  refreshTokenField : String
  envRefreshToken : String
deriving DecidableEq

deriving instance DecidableEq for Except

/-- The last_error local of refresh_fitbit_token: a stored non-200 response
(by status) or a stored caught RequestException. -/
inductive LastErr where
  | respErr (status : Nat)
  | exc (msg : String)
deriving DecidableEq

/-- Result of refresh_fitbit_token: its outcome (returned access token, or the
exception that propagates), the final token state, the number of network calls
(requests.post invocations, attempted or raised) and the number of
time.sleep delays performed. -/
structure RefreshResult where
  outcome : Except PyExc String
  state : RefreshState
  calls : Nat
  sleeps : Nat
deriving DecidableEq

/-- The code after the retry loop of refresh_fitbit_token: with no stored
error it raises the generic Exception; a stored failed response goes through
raise_for_status (an HTTPError for status 400 and above, otherwise
response.raise_for_status() is a no-op and raise last_error raises a
non-exception Response, a TypeError); a stored RequestException is re-raised. -/
def finishErr : Option LastErr → Except PyExc String
  | none => .error (.genericError "Failed to refresh token after all retries")
  | some (.respErr status) =>
      if 400 ≤ status then .error (.httpError status) else .error .typeError
  | some (.exc msg) => .error (.requestException msg)

/-- The retry loop of refresh_fitbit_token.  fuel counts the remaining
iterations (initially rc, the retry_count), i is the 0-based attempt index,
st the token state, le the last_error local, c and s the running network-call
and sleep counters.  A sleep happens only when attempt < retry_count - 1,
written here as i + 1 < rc. -/
def refreshGo (attempts : Nat → TokenAttempt) (rc : Nat) :
    Nat → Nat → RefreshState → Option LastErr → Nat → Nat → RefreshResult
  | 0, _, st, le, c, s => ⟨finishErr le, st, c, s⟩
  | fuel + 1, i, st, _le, c, s =>
    match attempts i with
    | .netErr m =>
        refreshGo attempts rc fuel (i + 1) st (some (.exc m)) (c + 1)
          (if i + 1 < rc then s + 1 else s)
    | .resp status body =>
      if status = 200 then
        match body with
        | none =>
            refreshGo attempts rc fuel (i + 1) st (some (.exc "JSONDecodeError"))
              (c + 1) (if i + 1 < rc then s + 1 else s)
        | some b =>
          let st' : RefreshState :=
            match b.refresh_token with
            | some t => ⟨t, t⟩
            | none => st
          match b.access_token with
          | some a => ⟨.ok a, st', c + 1, s⟩
          | none => ⟨.error (.keyError "access_token"), st', c + 1, s⟩
      else
        match body with
        | none =>
            refreshGo attempts rc fuel (i + 1) st (some (.exc "JSONDecodeError"))
              (c + 1) (if i + 1 < rc then s + 1 else s)
        | some b =>
          match b.errors with
          | some [] => ⟨.error .indexError, st, c + 1, s⟩
          | some (t :: _) =>
            if t.getD "" = "invalid_grant" then
              ⟨.error (.valueError "Invalid refresh token - needs to be regenerated"),
                st, c + 1, s⟩
            else if t.getD "" = "invalid_client" then
              ⟨.error (.valueError "Invalid client credentials"), st, c + 1, s⟩
            else
              refreshGo attempts rc fuel (i + 1) st (some (.respErr status))
                (c + 1) (if i + 1 < rc then s + 1 else s)
          | none =>
              refreshGo attempts rc fuel (i + 1) st (some (.respErr status))
                (c + 1) (if i + 1 < rc then s + 1 else s)

/-- refresh_fitbit_token(retry_count, retry_delay): runs the retry loop over
the given per-attempt outcomes, starting from the given token state.  The
delay length (retry_delay, default 5) only feeds time.sleep and is captured by
the sleeps counter. -/
def refreshFitbitToken (attempts : Nat → TokenAttempt) (rc : Nat)
    (st : RefreshState) : RefreshResult :=
  refreshGo attempts rc rc 0 st none 0 0

/-- The last_error value stored by one non-terminating loop iteration with the
given attempt outcome. -/
def stepLastErr : TokenAttempt → Option LastErr
  | .netErr m => some (.exc m)
  | .resp _ none => some (.exc "JSONDecodeError")
  | .resp status (some _) => some (.respErr status)

/-- The error surfaced after the loop exhausts its attempts, as a function of
the final attempt outcome. -/
def lastAttemptError (a : TokenAttempt) : Except PyExc String :=
  finishErr (stepLastErr a)

/-- An attempt outcome on which the retry loop continues to the next
iteration: a network failure, an unparseable body (JSONDecodeError is caught
as a RequestException), or a non-200 response whose body carries no errors
array or a non-empty errors array with a first errorType that is neither
invalid_grant nor invalid_client. -/
def continuesAttempt : TokenAttempt → Bool
  | .netErr _ => true
  | .resp _ none => true
  | .resp status (some b) =>
    if status = 200 then false
    else
      match b.errors with
      | none => true
      | some [] => false
      | some (t :: _) =>
        !(t.getD "" = "invalid_grant") && !(t.getD "" = "invalid_client")

/-- A transient attempt in the sense of the specification: a network failure,
or a non-200 response that is not an invalid_grant or invalid_client error
(with a parseable body whose errors array, when present, is non-empty; an
empty errors array makes the code raise IndexError instead of retrying). -/
def transientAttempt : TokenAttempt → Bool
  | .netErr _ => true
  | .resp status none => !(status = 200)
  | .resp status (some b) =>
    if status = 200 then false
    else
      match b.errors with
      | none => true
      | some [] => false
      | some (t :: _) =>
        !(t.getD "" = "invalid_grant") && !(t.getD "" = "invalid_client")

/-- Outcome of one requests.get to a Fitbit metrics endpoint: a response with
a status code and an optional parsed JSON body of shape A (none models a body
that is not valid JSON), or a network-level RequestException. -/
inductive MetricsAttempt (A : Type) where
  | resp (status : Nat) (body : Option A)
  | netErr (msg : String)
deriving DecidableEq

/-- Result of _make_fitbit_request: the parsed JSON on success, None when a
RequestException was caught (the except branch returns None), or an uncaught
exception that propagates to the caller. -/
inductive MetricsResult (A : Type) where
  | data (a : A)
  | noData
  | raised (e : PyExc)
deriving DecidableEq

/-- Network calls made by one _make_fitbit_request invocation: GET requests to
the metrics endpoint and invocations of refresh_fitbit_token. -/
structure MetricsTrace where
  gets : Nat
  refreshes : Nat
deriving DecidableEq

/-- The tail of _make_fitbit_request applied to the final response: a non-200
status goes through raise_for_status (HTTPError for 400 and above, caught by
the except clause, giving None); otherwise response.json() is returned, a
parse failure again being caught to None. -/
def finishMetrics {A : Type} (status : Nat) (body : Option A) : MetricsResult A :=
  if status ≠ 200 ∧ 400 ≤ status then .noData
  else
    match body with
    | some a => .data a
    | none => .noData

/-- _make_fitbit_request for a GET endpoint.  r1 is the outcome of the first
requests.get; on a 401 the method calls refresh_fitbit_token (modelled by its
attempt outcomes refreshAttempts over the token state st, with the default
retry_count 3) and, when the refresh returns a token, retries once with
outcome r2.  A ValueError or other non-RequestException raised by the refresh
propagates; RequestExceptions (including HTTPError and network errors) are
caught and give None.  Returns the result together with the network-call
trace. -/
def makeFitbitRequest {A : Type} (r1 r2 : MetricsAttempt A)
    (refreshAttempts : Nat → TokenAttempt) (st : RefreshState) :
    MetricsResult A × MetricsTrace :=
  match r1 with
  | .netErr _ => (.noData, ⟨1, 0⟩)
  | .resp s1 b1 =>
    if s1 = 401 then
      match (refreshFitbitToken refreshAttempts 3 st).outcome with
      | .error e =>
          (if isRequestException e then .noData else .raised e, ⟨1, 1⟩)
      | .ok _ =>
        match r2 with
        | .netErr _ => (.noData, ⟨2, 1⟩)
        | .resp s2 b2 => (finishMetrics s2 b2, ⟨2, 1⟩)
    else (finishMetrics s1 b1, ⟨1, 0⟩)

/-- The summary object of the Fitbit daily activity response.  The five fields
read by direct indexing (KeyError when absent) and the optional caloriesOut
read with .get(_, 0). -/
structure ActivitySummary where
  sedentaryMinutes : Option Int
  lightlyActiveMinutes : Option Int
  fairlyActiveMinutes : Option Int
  veryActiveMinutes : Option Int
  steps : Option Int
  caloriesOut : Option Int
deriving DecidableEq

/-- Parsed body of the activities/date endpoint; summary is read by direct
indexing.  A parsed body that is an empty (falsy) object is modelled by the
request result noData, like None, since the code guards with if data. -/
structure ActivityBody where
  summary : Option ActivitySummary
deriving DecidableEq

/-- The flat activity record built by get_daily_activity_minutes. -/
structure ActivityData where
  date : String
  sedentary_minutes : Int
  lightly_active_minutes : Int
  fairly_active_minutes : Int
  very_active_minutes : Int
  steps : Int
  calories : Int
deriving DecidableEq

/-- get_daily_activity_minutes, applied to the result of its
_make_fitbit_request call.  An exception from the request propagates; None
(and a falsy body) gives None; otherwise the record is built, raising KeyError
on any of the five directly indexed summary fields and defaulting caloriesOut
to 0. -/
def get_daily_activity_minutes (date : String)
    (res : MetricsResult ActivityBody) : Except PyExc (Option ActivityData) :=
  match res with
  | .raised e => .error e
  | .noData => .ok none
  | .data body =>
    match body.summary with
    | none => .error (.keyError "summary")
    | some s =>
      match s.sedentaryMinutes with
      | none => .error (.keyError "sedentaryMinutes")
      | some sed =>
        match s.lightlyActiveMinutes with
        | none => .error (.keyError "lightlyActiveMinutes")
        | some lam =>
          match s.fairlyActiveMinutes with
          | none => .error (.keyError "fairlyActiveMinutes")
          | some fam =>
            match s.veryActiveMinutes with
            | none => .error (.keyError "veryActiveMinutes")
            | some vam =>
              match s.steps with
              | none => .error (.keyError "steps")
              | some stp =>
                .ok (some ⟨date, sed, lam, fam, vam, stp, s.caloriesOut.getD 0⟩)

/-- The summary object of the Fitbit sleep response, all three fields read
with .get(_, 0). -/
structure SleepSummary where
  totalMinutesAsleep : Option Int
  totalSleepRecords : Option Int
  totalTimeInBed : Option Int
deriving DecidableEq

/-- Parsed body of the sleep/date endpoint.  summary none models an absent or
falsy (empty) summary, the cases where data.get("summary") is falsy. -/
structure SleepBody where
  summary : Option SleepSummary
deriving DecidableEq

/-- The flat sleep record built by get_sleep_data. -/
structure SleepData where
  date : String
  total_minutes_asleep : Int
  total_sleep_records : Int
  total_time_in_bed : Int
deriving DecidableEq

/-- get_sleep_data, applied to the result of its _make_fitbit_request call:
None when the request gave None or the summary is absent, otherwise the
record with each field defaulted to 0. -/
def get_sleep_data (date : String) (res : MetricsResult SleepBody) :
    Except PyExc (Option SleepData) :=
  match res with
  | .raised e => .error e
  | .noData => .ok none
  | .data body =>
    match body.summary with
    | none => .ok none
    | some s =>
      .ok (some ⟨date, s.totalMinutesAsleep.getD 0, s.totalSleepRecords.getD 0,
        s.totalTimeInBed.getD 0⟩)

/-- One entry of the weight array of the Fitbit weight-log response; weight,
bmi and logId are all read with .get, the first two defaulting to 0 and logId
to the empty string. -/
structure WeightEntry where
  weight : Option Int
  bmi : Option Int
  logId : Option Int
deriving DecidableEq

/-- Parsed body of the body/log/weight endpoint; an absent weight key and an
empty array are both falsy in data.get("weight") and are modelled by the empty
list. -/
structure WeightBody where
  weight : List WeightEntry
deriving DecidableEq

/-- The flat weight record built by get_weight_data; log_id is the numeric
logId of the entry or the empty string default. -/
structure WeightData where
  date : String
  weight : Int
  bmi : Int
  log_id : PyVal
deriving DecidableEq

/-- get_weight_data, applied to the result of its _make_fitbit_request call:
None when the request gave None or the weight array is empty, otherwise a
record from the first entry with weight and bmi defaulted to 0 and logId to
the empty string. -/
def get_weight_data (date : String) (res : MetricsResult WeightBody) :
    Except PyExc (Option WeightData) :=
  match res with
  | .raised e => .error e
  | .noData => .ok none
  | .data body =>
    match body.weight with
    | [] => .ok none
    | e :: _ =>
      .ok (some ⟨date, e.weight.getD 0, e.bmi.getD 0,
        (e.logId.map PyVal.int).getD (.str "")⟩)

/-- Modelled from the spec: the source calls self.get_heart_rate_data(date)
(fitbit_tracker.py line 183) but no definition of get_heart_rate_data exists
anywhere in the repository.  The specification (section 4.2) says each of the
four category fetchers maps the provider JSON for the date to a flat mapping
of metric names to numeric values, returning no record when there is no data.
The fetched flat mapping is therefore taken as the model input directly. -/
structure HeartRateData where
  date : String
  fields : List (String × Int)
deriving DecidableEq

/-- Modelled from the spec: get_heart_rate_data wraps the flat numeric mapping
fetched for the date into a record, or returns None when there is no data. -/
def get_heart_rate_data (date : String) (res : Option (List (String × Int))) :
    Option HeartRateData :=
  res.map (fun fs => ⟨date, fs⟩)

/-- The per-date aggregate built by get_comprehensive_health_data, with the
categories in the insertion order of the Python dict literal. -/
structure HealthData where
  date : String
  activity : Option ActivityData
  sleep : Option SleepData
  weight : Option WeightData
  heart_rate : Option HeartRateData
deriving DecidableEq

/-- get_comprehensive_health_data for one date, applied to the results of the
three metrics requests and the spec-modelled heart-rate data.  The dict
literal evaluates its values in order, so an exception from an earlier fetch
propagates before the later ones run. -/
def get_comprehensive_health_data (date : String)
    (act : MetricsResult ActivityBody) (slp : MetricsResult SleepBody)
    (wt : MetricsResult WeightBody) (hr : Option (List (String × Int))) :
    Except PyExc HealthData := do
  let a ← get_daily_activity_minutes date act
  let s ← get_sleep_data date slp
  let w ← get_weight_data date wt
  .ok ⟨date, a, s, w, get_heart_rate_data date hr⟩

/-- One row returned by the Notion database query, reduced to the part the
code reads: properties.Date.date.start, where the date object may be None
(dateStart none); rows with a None date are skipped by the comprehension
filter.  A row on which the property path itself is missing makes the
comprehension raise, which the except clause of check_existing_entries turns
into the fail-open result, so such responses are modelled by the error case of
the query argument. -/
structure NotionEntry where
  dateStart : Option String
deriving DecidableEq

/-- The existing_dates list extracted from the query results: the start date
of every row whose date object is present (truthy). -/
def existingDatesOf (entries : List NotionEntry) : List String :=
  entries.filterMap (fun e => e.dateStart)

/-- check_existing_entries: on any exception from the query (network failure,
non-2xx raise_for_status, or a response shape that breaks the extraction) the
except clause returns the full input list; on success it returns the input
dates that are not among the extracted existing dates, in input order. -/
def check_existing_entries (dates : List String)
    (query : Except PyExc (List NotionEntry)) : List String :=
  match query with
  | .error _ => dates
  | .ok entries =>
    let existing_dates := existingDatesOf entries
    dates.filter (fun d => !(existing_dates.contains d))

/-- Replacement of every underscore by a space, key.replace("_", " "). -/
def underscoresToSpaces (s : String) : String :=
  String.mk (s.toList.map (fun c => if c = '_' then ' ' else c))

/-- Helper for pyTitle carrying whether the previous character was cased. -/
def pyTitleGo : Bool → List Char → List Char
  | _, [] => []
  | prev, c :: cs =>
    if c.isAlpha then
      (if prev then c.toLower else c.toUpper) :: pyTitleGo true cs
    else c :: pyTitleGo false cs

/-- Python str.title(): the first letter of every run of letters is
uppercased, the following letters lowercased. -/
def pyTitle (s : String) : String :=
  String.mk (pyTitleGo false s.toList)

/-- The display label of a metric key, key.replace("_", " ").title(). -/
def pyDisplayKey (k : String) : String :=
  pyTitle (underscoresToSpaces k)

/-- A Notion property value as built by post_to_notion: a date object with a
start string, or a number property holding the raw Python value. -/
inductive NotionValue where
  | dateVal (start : String)
  | numberVal (v : PyVal)
deriving DecidableEq

/-- The items() view of the activity record dict, in insertion order. -/
def activityItems (a : ActivityData) : List (String × PyVal) :=
  [("date", .str a.date),
   ("sedentary_minutes", .int a.sedentary_minutes),
   ("lightly_active_minutes", .int a.lightly_active_minutes),
   ("fairly_active_minutes", .int a.fairly_active_minutes),
   ("very_active_minutes", .int a.very_active_minutes),
   ("steps", .int a.steps),
   ("calories", .int a.calories)]

/-- The items() view of the sleep record dict, in insertion order. -/
def sleepItems (s : SleepData) : List (String × PyVal) :=
  [("date", .str s.date),
   ("total_minutes_asleep", .int s.total_minutes_asleep),
   ("total_sleep_records", .int s.total_sleep_records),
   ("total_time_in_bed", .int s.total_time_in_bed)]

/-- The items() view of the weight record dict, in insertion order. -/
def weightItems (w : WeightData) : List (String × PyVal) :=
  [("date", .str w.date),
   ("weight", .int w.weight),
   ("bmi", .int w.bmi),
   ("log_id", w.log_id)]

/-- The items() view of the spec-modelled heart-rate record: the date followed
by the flat numeric fields. -/
def heartItems (h : HeartRateData) : List (String × PyVal) :=
  ("date", .str h.date) :: h.fields.map (fun p => (p.1, .int p.2))

/-- The inner loop of post_to_notion over one category record: every key other
than date becomes a number property under its display label. -/
def flattenCategory (items : List (String × PyVal)) : List (String × NotionValue) :=
  (items.filter (fun p => !(p.1 = "date" : Bool))).map
    (fun p => (pyDisplayKey p.1, .numberVal p.2))

/-- Contribution of one optional category to the property map: nothing when
the category is None (falsy), its flattened items otherwise. -/
def optCategory {B : Type} (o : Option B) (items : B → List (String × PyVal)) :
    List (String × NotionValue) :=
  match o with
  | none => []
  | some x => flattenCategory (items x)

/-- The properties map built by post_to_notion: the Date property followed by
the flattened items of every present category, in the iteration order of
health_data.items(). -/
def notionProperties (hd : HealthData) : List (String × NotionValue) :=
  ("Date", .dateVal hd.date)
    :: (optCategory hd.activity activityItems
        ++ optCategory hd.sleep sleepItems
        ++ optCategory hd.weight weightItems
        ++ optCategory hd.heart_rate heartItems)

/-- The five environment variables read by the constructor; none models an
absent variable (KeyError on read). -/
structure Env where
  fitbit_client_id : Option String
  fitbit_client_secret : Option String
  fitbit_refresh_token : Option String
  notion_token : Option String
  notion_database_id : Option String
deriving DecidableEq

/-- True when at least one of the five required variables is absent. -/
def missingAnyCredential (env : Env) : Bool :=
  env.fitbit_client_id.isNone || env.fitbit_client_secret.isNone ||
  env.fitbit_refresh_token.isNone || env.notion_token.isNone ||
  env.notion_database_id.isNone

/-- Python str.strip(): the string without leading and trailing whitespace. -/
def pyStrip (s : String) : String :=
  String.mk
    (((s.toList.dropWhile Char.isWhitespace).reverse.dropWhile
        Char.isWhitespace).reverse)

/-- Whether a base64 alphabet character survives CPython's lenient decoder. -/
def b64AlphabetChar (c : Char) : Bool :=
  c.isAlphanum || c = '+' || c = '/' || c = '='

/-- Model of base64.b64decode with default validation: characters outside the
alphabet are discarded and decoding fails exactly when the number of remaining
characters is not a multiple of four (incorrect padding). -/
def b64decodeOk (s : String) : Bool :=
  (s.toList.filter b64AlphabetChar).length % 4 = 0

/-- _is_valid_token_format: non-empty after strip, and the token with URL-safe
characters replaced and padded to a multiple of four decodes as base64. -/
def is_valid_token_format (token : String) : Bool :=
  if pyStrip token = "" then false
  else
    b64decodeOk
      (String.mk
        ((token.toList.map (fun c => if c = '-' then '+' else c)).map
          (fun c => if c = '_' then '/' else c))
        ++ String.mk (List.replicate ((4 - token.length % 4) % 4) '='))

/-- The tracker object: the five credentials as stored on self plus the access
token obtained during construction. -/
structure Tracker where
  fitbit_client_id : String
  fitbit_client_secret : String
  fitbit_refresh_token : String
  notion_token : String
  notion_database_id : String
  fitbit_access_token : String
deriving DecidableEq

/-- _validate_credentials: the three Fitbit credentials are checked non-empty
after strip in order, then the refresh token format; the two Notion
credentials are not checked. -/
def validate_credentials (t : Tracker) : Except PyExc Unit :=
  if pyStrip t.fitbit_client_id = "" then
    .error (.valueError "Invalid FITBIT_CLIENT_ID")
  else if pyStrip t.fitbit_client_secret = "" then
    .error (.valueError "Invalid FITBIT_CLIENT_SECRET")
  else if pyStrip t.fitbit_refresh_token = "" then
    .error (.valueError "Invalid FITBIT_REFRESH_TOKEN")
  else if !(is_valid_token_format t.fitbit_refresh_token) then
    .error (.valueError "Refresh token appears to be malformed")
  else .ok ()

/-- The constructor: reads the five variables in source order (the first
absent one raises KeyError before any network traffic), then calls
refresh_fitbit_token (the first network call), and only afterwards runs
_validate_credentials on the possibly rotated refresh token.  Returns the
constructed tracker or the propagated exception, together with the number of
network calls made. -/
def initTracker (env : Env) (attempts : Nat → TokenAttempt) :
    Except PyExc Tracker × Nat :=
  match env.fitbit_client_id with
  | none => (.error (.keyError "FITBIT_CLIENT_ID"), 0)
  | some cid =>
    match env.fitbit_client_secret with
    | none => (.error (.keyError "FITBIT_CLIENT_SECRET"), 0)
    | some cs =>
      match env.fitbit_refresh_token with
      | none => (.error (.keyError "FITBIT_REFRESH_TOKEN"), 0)
      | some rt =>
        match env.notion_token with
        | none => (.error (.keyError "NOTION_TOKEN"), 0)
        | some nt =>
          match env.notion_database_id with
          | none => (.error (.keyError "NOTION_DATABASE_ID"), 0)
          | some db =>
            match refreshFitbitToken attempts 3 ⟨rt, rt⟩ with
            | ⟨.error e, _, calls, _⟩ => (.error e, calls)
            | ⟨.ok tok, state, calls, _⟩ =>
              let t : Tracker := ⟨cid, cs, state.refreshTokenField, nt, db, tok⟩
              match validate_credentials t with
              | .error e => (.error e, calls)
              | .ok _ => (.ok t, calls)

/-- True exactly for Except.ok. -/
def exceptIsOk {E A : Type} : Except E A → Bool
  | .ok _ => true
  | .error _ => false

/-- The whole outside world of one run of main: the environment, the token
endpoint outcomes seen during construction, the current day and the date
formatting (strftime composed with the calendar is abstracted as the
world-supplied dayString), the Notion query outcome, the per-date results of
the three metrics requests, the spec-modelled heart-rate data, and the per-
date success of the Notion page creation. -/
structure World where
  env : Env
  initAttempts : Nat → TokenAttempt
  today : Int
  dayString : Int → String
  query : Except PyExc (List NotionEntry)
  activityResult : String → MetricsResult ActivityBody
  sleepResult : String → MetricsResult SleepBody
  weightResult : String → MetricsResult WeightBody
  heartRateData : String → Option (List (String × Int))
  postOutcome : String → Bool

/-- Result of one run of main: the process exit code, the rows successfully
created in Notion (each a properties map), and the exception the top-level
except clause caught, if any. -/
structure MainResult where
  exitCode : Nat
  createdRows : List (List (String × NotionValue))
  caughtError : Option PyExc
deriving DecidableEq

/-- The per-date loop of main: collect the comprehensive data and post it.  An
exception from a fetch propagates to the try of main, as does the re-raise of
post_to_notion on a failed creation; either aborts the loop.  main catches
every exception, prints it and returns normally, so the exit code is 0 in
every branch. -/
def processDates (w : World) (rows : List (List (String × NotionValue))) :
    List String → MainResult
  | [] => ⟨0, rows, none⟩
  | d :: ds =>
    match get_comprehensive_health_data d (w.activityResult d) (w.sleepResult d)
        (w.weightResult d) (w.heartRateData d) with
    | .error e => ⟨0, rows, some e⟩
    | .ok hd =>
      if w.postOutcome d then
        processDates w (rows ++ [notionProperties hd]) ds
      else ⟨0, rows, some (.requestException "Error posting to Notion")⟩

/-- main: construct the tracker, build the trailing window of the last 7 days
(most recent first, indices 0..6 subtracted from today), filter it through
check_existing_entries and process the remaining dates.  The top-level except
swallows every exception after printing it, so the function always returns
normally and the process exit code is 0. -/
def mainRun (w : World) : MainResult :=
  match initTracker w.env w.initAttempts with
  | (.error e, _) => ⟨0, [], some e⟩
  | (.ok _, _) =>
    let date_range := (List.range 7).map (fun i => w.dayString (w.today - Int.ofNat i))
    let dates_to_process := check_existing_entries date_range w.query
    processDates w [] dates_to_process

/-- A concrete environment with all five variables present, the destination
token present but empty, and a well-formed Fitbit refresh token. -/
def c2Env : Env := ⟨some "id", some "sec", some "abcd", some "", some "db"⟩

/-- A token endpoint that answers 200 with an access token and no rotation. -/
def c2Attempts : Nat → TokenAttempt :=
  fun _ => .resp 200 (some ⟨some "AT", none, none⟩)

/-- A concrete world whose environment lacks FITBIT_CLIENT_ID; the
construction raises KeyError inside the try of main. -/
def c3World : World :=
  ⟨⟨none, some "sec", some "abcd", some "nt", some "db"⟩, c2Attempts, 0,
   fun _ => "D", .ok [], fun _ => .noData, fun _ => .noData, fun _ => .noData,
   fun _ => none, fun _ => true⟩

/-- The destination row that a run with fully successful fetches creates for
date d, given the per-date metric values: the Date property followed by every
flattened numeric field of the four categories under its display label. -/
def c1Row (sed lam fam vam stp : String → Int)
    (cal sa sb sc wv wb wl : String → Option Int)
    (hf : String → List (String × Int)) (d : String) :
    List (String × NotionValue) :=
  ("Date", .dateVal d) ::
  ([("Sedentary Minutes", .numberVal (.int (sed d))),
    ("Lightly Active Minutes", .numberVal (.int (lam d))),
    ("Fairly Active Minutes", .numberVal (.int (fam d))),
    ("Very Active Minutes", .numberVal (.int (vam d))),
    ("Steps", .numberVal (.int (stp d))),
    ("Calories", .numberVal (.int ((cal d).getD 0))),
    ("Total Minutes Asleep", .numberVal (.int ((sa d).getD 0))),
    ("Total Sleep Records", .numberVal (.int ((sb d).getD 0))),
    ("Total Time In Bed", .numberVal (.int ((sc d).getD 0))),
    ("Weight", .numberVal (.int ((wv d).getD 0))),
    ("Bmi", .numberVal (.int ((wb d).getD 0))),
    ("Log Id", .numberVal (((wl d).map PyVal.int).getD (.str "")))] ++
   (((hf d).map (fun p => (p.1, PyVal.int p.2))).filter
       (fun p => !(p.1 = "date" : Bool))).map
     (fun p => (pyDisplayKey p.1, NotionValue.numberVal p.2)))

/-- A concrete world in which construction succeeds, the destination query
returns no rows, all category fetches succeed and every creation succeeds. -/
def c1World : World :=
  ⟨⟨some "id", some "sec", some "abcd", some "nt", some "db"⟩, c2Attempts, 0,
   fun i => "D" ++ toString i, .ok [],
   fun _ => .data ⟨some ⟨some 1, some 2, some 3, some 4, some 5, some 6⟩⟩,
   fun _ => .data ⟨some ⟨some 7, some 8, some 9⟩⟩,
   fun _ => .data ⟨[⟨some 70, some 22, some 99⟩]⟩,
   fun _ => some [("resting_heart_rate", 60)],
   fun _ => true⟩

-- Sanity checks of the refresh model on concrete traces.
example :
    refreshFitbitToken (fun _ => .resp 200 (some ⟨some "A", none, none⟩)) 3 ⟨"R", "R"⟩ =
      ⟨.ok "A", ⟨"R", "R"⟩, 1, 0⟩ := by decide

example :
    refreshFitbitToken (fun _ => .resp 500 (some ⟨none, none, some [some "x"]⟩)) 3 ⟨"R", "R"⟩ =
      ⟨.error (.httpError 500), ⟨"R", "R"⟩, 3, 2⟩ := by decide

example :
    refreshFitbitToken
      (fun i => if i = 0 then .netErr "boom"
        else .resp 200 (some ⟨some "A", some "N", none⟩)) 3 ⟨"R", "R"⟩ =
      ⟨.ok "A", ⟨"N", "N"⟩, 2, 1⟩ := by decide

example :
    refreshFitbitToken (fun _ => .resp 401 (some ⟨none, none, some [some "invalid_grant"]⟩))
      3 ⟨"R", "R"⟩ =
      ⟨.error (.valueError "Invalid refresh token - needs to be regenerated"), ⟨"R", "R"⟩, 1, 0⟩ := by
  decide

example :
    refreshFitbitToken (fun _ => .resp 500 (some ⟨none, none, some []⟩)) 3 ⟨"R", "R"⟩ =
      ⟨.error .indexError, ⟨"R", "R"⟩, 1, 0⟩ := by decide

/-
Helper lemmas about the refresh loop and the orchestration, shared by the
claim theorems below.
-/

/-- One iteration of the retry loop on an outcome that does not end it:
the loop recurses with the stored last error, one more call and, except on the
final attempt, one more sleep. -/
theorem refreshGo_continue_step (attempts : Nat → TokenAttempt) (rc fuel i : Nat)
    (st : RefreshState) (le : Option LastErr) (c s : Nat)
    (h : continuesAttempt (attempts i) = true) :
    refreshGo attempts rc (fuel + 1) i st le c s =
      refreshGo attempts rc fuel (i + 1) st (stepLastErr (attempts i)) (c + 1)
        (if i + 1 < rc then s + 1 else s) := by
  cases ha : attempts i with
  | netErr m => simp [refreshGo, ha, stepLastErr]
  | resp status body =>
    cases body with
    | none =>
      by_cases h200 : status = 200 <;>
        simp [refreshGo, ha, stepLastErr, h200]
    | some b =>
      rw [ha] at h
      simp only [continuesAttempt] at h
      by_cases h200 : status = 200
      · simp [h200] at h
      · rw [if_neg h200] at h
        simp only [refreshGo, ha, stepLastErr, if_neg h200]
        cases herr : b.errors with
        | none => simp [herr]
        | some l =>
          cases l with
          | nil => rw [herr] at h; simp at h
          | cons t ts =>
            rw [herr] at h
            simp only [Bool.and_eq_true, Bool.not_eq_eq_eq_not, Bool.not_true,
              decide_eq_false_iff_not] at h
            simp [herr, h.1, h.2]

/-- A transient outcome in the sense of the specification lets the loop
continue. -/
theorem transient_continues (a : TokenAttempt)
    (h : transientAttempt a = true) : continuesAttempt a = true := by
  cases a with
  | netErr m => rfl
  | resp status body =>
    cases body with
    | none => rfl
    | some b =>
      simp only [transientAttempt] at h
      simp only [continuesAttempt]
      exact h

/-- Bounds on the network-call counter of the retry loop: it never shrinks,
grows by at most one per remaining iteration, and grows by at least one as
soon as one iteration remains. -/
theorem refreshGo_calls_bounds (attempts : Nat → TokenAttempt) (rc : Nat) :
    ∀ (fuel i : Nat) (st : RefreshState) (le : Option LastErr) (c s : Nat),
      c ≤ (refreshGo attempts rc fuel i st le c s).calls ∧
      (refreshGo attempts rc fuel i st le c s).calls ≤ c + fuel ∧
      (0 < fuel → c + 1 ≤ (refreshGo attempts rc fuel i st le c s).calls) := by
  intro fuel
  induction fuel with
  | zero => intro i st le c s; simp [refreshGo]
  | succ f ih =>
    intro i st le c s
    by_cases hcont : continuesAttempt (attempts i) = true
    · rw [refreshGo_continue_step attempts rc f i st le c s hcont]
      have h := ih (i + 1) st (stepLastErr (attempts i)) (c + 1)
        (if i + 1 < rc then s + 1 else s)
      exact ⟨by omega, by omega, fun _ => by omega⟩
    · cases ha : attempts i with
      | netErr m => rw [ha] at hcont; simp [continuesAttempt] at hcont
      | resp status body =>
        cases body with
        | none => rw [ha] at hcont; simp [continuesAttempt] at hcont
        | some b =>
          rw [ha] at hcont
          simp only [continuesAttempt] at hcont
          by_cases h200 : status = 200
          · simp only [refreshGo, ha, if_pos h200]
            cases hat : b.access_token <;>
              cases hrt : b.refresh_token <;>
                (refine ⟨?_, ?_, fun _ => ?_⟩ <;> simp [hrt, hat])
          · rw [if_neg h200] at hcont
            cases herr : b.errors with
            | none => rw [herr] at hcont; simp at hcont
            | some l =>
              cases l with
              | nil =>
                simp only [refreshGo, ha, if_neg h200, herr]
                refine ⟨?_, ?_, fun _ => ?_⟩ <;> simp
              | cons t ts =>
                rw [herr] at hcont
                simp only [Bool.and_eq_true, Bool.not_eq_eq_eq_not, Bool.not_true,
                  decide_eq_false_iff_not, not_and_or, not_not] at hcont
                simp only [refreshGo, ha, if_neg h200, herr]
                rcases hcont with hig | hic
                · rw [if_pos hig]
                  refine ⟨?_, ?_, fun _ => ?_⟩ <;> simp
                · by_cases hig : t.getD "" = "invalid_grant"
                  · rw [if_pos hig]
                    refine ⟨?_, ?_, fun _ => ?_⟩ <;> simp
                  · rw [if_neg hig, if_pos hic]
                    refine ⟨?_, ?_, fun _ => ?_⟩ <;> simp

/-- The token state produced by the retry loop when attempt i + k is the first
accepted 200 response and every earlier attempt lets the loop continue: the
state is rotated to the new refresh token exactly when the body carries one. -/
theorem refreshGo_state_of_success (attempts : Nat → TokenAttempt) (rc : Nat) :
    ∀ (k fuel i : Nat) (st : RefreshState) (le : Option LastErr) (c s : Nat)
      (b : TokenBody),
      (∀ j, j < k → continuesAttempt (attempts (i + j)) = true) →
      attempts (i + k) = .resp 200 (some b) →
      k < fuel →
      (refreshGo attempts rc fuel i st le c s).state =
        (match b.refresh_token with
         | some t => (⟨t, t⟩ : RefreshState)
         | none => st) := by
  intro k
  induction k with
  | zero =>
    intro fuel i st le c s b _hcont hsucc hlt
    cases fuel with
    | zero => omega
    | succ f =>
      rw [Nat.add_zero] at hsucc
      simp only [refreshGo, hsucc]
      cases hrt : b.refresh_token <;> cases hat : b.access_token <;>
        simp [hrt, hat]
  | succ k ih =>
    intro fuel i st le c s b hcont hsucc hlt
    cases fuel with
    | zero => omega
    | succ f =>
      have h0 : continuesAttempt (attempts i) = true := by
        have := hcont 0 (by omega)
        simpa using this
      rw [refreshGo_continue_step attempts rc f i st le c s h0]
      apply ih f (i + 1) st (stepLastErr (attempts i)) (c + 1)
        (if i + 1 < rc then s + 1 else s) b
      · intro j hj
        have := hcont (j + 1) (by omega)
        have harith : i + (j + 1) = i + 1 + j := by omega
        rwa [harith] at this
      · have harith : i + (k + 1) = i + 1 + k := by omega
        rwa [harith] at hsucc
      · omega

/-- check_existing_entries on a successful query with no rows keeps all dates. -/
theorem check_existing_entries_ok_nil (dates : List String) :
    check_existing_entries dates (.ok []) = dates := by
  simp [check_existing_entries, existingDatesOf]

/-- _validate_credentials rejects a tracker on which one of the three Fitbit
credentials strips to the empty string. -/
theorem validate_error_of (t : Tracker)
    (h : pyStrip t.fitbit_client_id = "" ∨ pyStrip t.fitbit_client_secret = "" ∨
      pyStrip t.fitbit_refresh_token = "") :
    exceptIsOk (validate_credentials t) = false := by
  unfold validate_credentials
  rcases h with h | h | h
  · simp [h, exceptIsOk]
  · by_cases h1 : pyStrip t.fitbit_client_id = "" <;>
      simp [h1, h, exceptIsOk]
  · by_cases h1 : pyStrip t.fitbit_client_id = "" <;>
      by_cases h2 : pyStrip t.fitbit_client_secret = "" <;>
        simp [h1, h2, h, exceptIsOk]

/-- The per-date loop of main returns exit code 0 in every branch. -/
theorem processDates_exitCode (w : World) :
    ∀ (ds : List String) (rows : List (List (String × NotionValue))),
      (processDates w rows ds).exitCode = 0 := by
  intro ds
  induction ds with
  | nil => intro rows; rfl
  | cons d ds ih =>
    intro rows
    simp only [processDates]
    cases get_comprehensive_health_data d (w.activityResult d) (w.sleepResult d)
        (w.weightResult d) (w.heartRateData d) with
    | error e => rfl
    | ok hd =>
      cases hp : w.postOutcome d <;> simp [hp, ih]

/-
The claim theorems.
-/

/-- Claim C8 (confirmed): for every input date list, when the destination
query raises, check_existing_entries returns the full input list unchanged
(fail-open: every input date is treated as unrecorded). -/
theorem claim_C8 (dates : List String) (e : PyExc) :
    check_existing_entries dates (.error e) = dates := rfl

/-- Claim C9 (confirmed): on a successful destination query the existence
filter returns exactly the input dates whose date is not among the dates
extracted from the matching rows, preserving the input order (the result is a
sublist of the input), and on the 7-day window of the claim with rows for
2024-01-01 and 2024-01-02 it returns the window minus those two dates. -/
theorem claim_C9 :
    (∀ (dates : List String) (entries : List NotionEntry),
      List.Sublist (check_existing_entries dates (.ok entries)) dates) ∧
    (∀ (dates : List String) (entries : List NotionEntry) (d : String),
      d ∈ check_existing_entries dates (.ok entries) ↔
        d ∈ dates ∧ d ∉ existingDatesOf entries) ∧
    check_existing_entries
        ["2024-01-07", "2024-01-06", "2024-01-05", "2024-01-04", "2024-01-03",
         "2024-01-02", "2024-01-01"]
        (.ok [⟨some "2024-01-01"⟩, ⟨some "2024-01-02"⟩]) =
      ["2024-01-07", "2024-01-06", "2024-01-05", "2024-01-04", "2024-01-03"] := by
  refine ⟨?_, ?_, by decide⟩
  · intro dates entries
    simp only [check_existing_entries]
    exact List.filter_sublist dates
  · intro dates entries d
    simp [check_existing_entries, List.mem_filter]

/-- Claim C4 counterexample (claim as stated is false): a weight entry without
a logId yields a record whose log_id is the empty string, which is not a zero
number, so not every missing optional sub-field is substituted by a zero
default. -/
theorem claim_C4_counterexample :
    get_weight_data "2024-01-01" (.data ⟨[⟨some 70, some 22, none⟩]⟩) =
      .ok (some ⟨"2024-01-01", 70, 22, .str ""⟩) ∧
    PyVal.str "" ≠ PyVal.int 0 := ⟨rfl, by decide⟩

/-- Claim C4 as amended: accepted responses substitute a zero default for each
missing numeric optional sub-field (caloriesOut for activity; the three sleep
summary fields; weight and bmi of a weight entry), the weight entry's optional
logId is substituted by the empty string rather than zero, and the weight
fetcher returns no record at all (None, not a zero-filled record) when the
provider has no weight entry for that date. -/
theorem claim_C4_amended :
    (∀ (date : String) (sed lam fam vam stp : Int),
      get_daily_activity_minutes date
          (.data ⟨some ⟨some sed, some lam, some fam, some vam, some stp, none⟩⟩) =
        .ok (some ⟨date, sed, lam, fam, vam, stp, 0⟩)) ∧
    (∀ (date : String) (a b c : Option Int),
      get_sleep_data date (.data ⟨some ⟨a, b, c⟩⟩) =
        .ok (some ⟨date, a.getD 0, b.getD 0, c.getD 0⟩)) ∧
    (∀ (date : String) (wv wb : Option Int),
      get_weight_data date (.data ⟨[⟨wv, wb, none⟩]⟩) =
        .ok (some ⟨date, wv.getD 0, wb.getD 0, .str ""⟩)) ∧
    (∀ date : String, get_weight_data date .noData = .ok none) ∧
    (∀ date : String, get_weight_data date (.data ⟨[]⟩) = .ok none) :=
  ⟨fun _ _ _ _ _ _ => rfl, fun _ _ _ _ => rfl, fun _ _ _ => rfl,
   fun _ => rfl, fun _ => rfl⟩

/-- Claim C7 (confirmed): a first token-endpoint response that is not a 200
and whose first error has errorType invalid_grant (resp. invalid_client)
makes refresh_fitbit_token fail immediately and fatally with the
corresponding ValueError, after exactly one network call, with no delay and
no state change. -/
theorem claim_C7 :
    (∀ (attempts : Nat → TokenAttempt) (st : RefreshState) (status : Nat)
        (b : TokenBody) (t : Option String) (rest : List (Option String)),
      attempts 0 = .resp status (some b) → status ≠ 200 →
      b.errors = some (t :: rest) → t.getD "" = "invalid_grant" →
      refreshFitbitToken attempts 3 st =
        ⟨.error (.valueError "Invalid refresh token - needs to be regenerated"),
          st, 1, 0⟩) ∧
    (∀ (attempts : Nat → TokenAttempt) (st : RefreshState) (status : Nat)
        (b : TokenBody) (t : Option String) (rest : List (Option String)),
      attempts 0 = .resp status (some b) → status ≠ 200 →
      b.errors = some (t :: rest) → t.getD "" = "invalid_client" →
      refreshFitbitToken attempts 3 st =
        ⟨.error (.valueError "Invalid client credentials"), st, 1, 0⟩) := by
  constructor
  · intro attempts st status b t rest h0 hne herr hig
    unfold refreshFitbitToken
    simp [refreshGo, h0, hne, herr, hig]
  · intro attempts st status b t rest h0 hne herr hic
    unfold refreshFitbitToken
    simp [refreshGo, h0, hne, herr, hic]

/-- Claim C7 witness: the theorem applied to a concrete 401 invalid_grant
response. -/
theorem claim_C7_witness :
    refreshFitbitToken
        (fun _ => .resp 401 (some ⟨none, none, some [some "invalid_grant"]⟩)) 3
        ⟨"R", "R"⟩ =
      ⟨.error (.valueError "Invalid refresh token - needs to be regenerated"),
        ⟨"R", "R"⟩, 1, 0⟩ :=
  claim_C7.1 _ ⟨"R", "R"⟩ 401 ⟨none, none, some [some "invalid_grant"]⟩
    (some "invalid_grant") [] rfl (by decide) rfl rfl

/-- Claim C5 (confirmed): when the first metrics response is a 401,
_make_fitbit_request invokes refresh_fitbit_token exactly once and issues at
most two GET requests in every case; when the refresh returns a token it
retries the request exactly once, and if that retry is again a 401 the call
fails with None (the HTTPError of raise_for_status is caught) instead of
refreshing or retrying again. -/
theorem claim_C5 {A : Type} (b1 : Option A) (r2 : MetricsAttempt A)
    (refreshAttempts : Nat → TokenAttempt) (st : RefreshState) :
    (makeFitbitRequest (.resp 401 b1) r2 refreshAttempts st).2.refreshes = 1 ∧
    (makeFitbitRequest (.resp 401 b1) r2 refreshAttempts st).2.gets ≤ 2 ∧
    (∀ tok, (refreshFitbitToken refreshAttempts 3 st).outcome = .ok tok →
      (makeFitbitRequest (.resp 401 b1) r2 refreshAttempts st).2.gets = 2 ∧
      (∀ b2, r2 = .resp 401 b2 →
        (makeFitbitRequest (.resp 401 b1) r2 refreshAttempts st).1 = .noData)) := by
  cases ho : (refreshFitbitToken refreshAttempts 3 st).outcome with
  | error e =>
    refine ⟨?_, ?_, ?_⟩
    · simp [makeFitbitRequest, ho]
    · simp [makeFitbitRequest, ho]
    · intro tok htok
      exact absurd htok (by simp)
  | ok tok =>
    cases r2 with
    | netErr m =>
      refine ⟨?_, ?_, ?_⟩
      · simp [makeFitbitRequest, ho]
      · simp [makeFitbitRequest, ho]
      · intro tok2 _
        refine ⟨by simp [makeFitbitRequest, ho], ?_⟩
        intro b2 hb2
        cases hb2
    | resp s2 b2 =>
      refine ⟨?_, ?_, ?_⟩
      · simp [makeFitbitRequest, ho]
      · simp [makeFitbitRequest, ho]
      · intro tok2 _
        refine ⟨by simp [makeFitbitRequest, ho], ?_⟩
        intro b2' hb2
        injection hb2 with hs hb
        subst hs
        subst hb
        simp [makeFitbitRequest, ho, finishMetrics]

/-- Claim C5 witness: the theorem applied to a concrete pair of 401 responses
with a succeeding refresh. -/
theorem claim_C5_witness :
    (makeFitbitRequest (A := Nat) (.resp 401 none) (.resp 401 none)
        (fun _ => .resp 200 (some ⟨some "AT", none, none⟩)) ⟨"R", "R"⟩).2.refreshes = 1 ∧
    (makeFitbitRequest (A := Nat) (.resp 401 none) (.resp 401 none)
        (fun _ => .resp 200 (some ⟨some "AT", none, none⟩)) ⟨"R", "R"⟩).2.gets = 2 ∧
    (makeFitbitRequest (A := Nat) (.resp 401 none) (.resp 401 none)
        (fun _ => .resp 200 (some ⟨some "AT", none, none⟩)) ⟨"R", "R"⟩).1 = .noData := by
  have h := claim_C5 (A := Nat) none (.resp 401 none)
    (fun _ => .resp 200 (some ⟨some "AT", none, none⟩)) ⟨"R", "R"⟩
  have h2 := h.2.2 "AT" (by decide)
  exact ⟨h.1, h2.1, h2.2 none rfl⟩

/-- Claim C10 (confirmed): when attempt i is the first accepted 200 response
of a refresh (all earlier attempts let the loop continue), the stored refresh
token field and the environment variable FITBIT_REFRESH_TOKEN are left
unchanged when the body carries no refresh_token, and both are replaced with
the new value when it carries one. -/
theorem claim_C10 (attempts : Nat → TokenAttempt) (rc : Nat)
    (st : RefreshState) (i : Nat) (b : TokenBody)
    (hlt : i < rc)
    (hcont : ∀ j, j < i → continuesAttempt (attempts j) = true)
    (hsucc : attempts i = .resp 200 (some b)) :
    (b.refresh_token = none → (refreshFitbitToken attempts rc st).state = st) ∧
    (∀ t, b.refresh_token = some t →
      (refreshFitbitToken attempts rc st).state = ⟨t, t⟩) := by
  have h := refreshGo_state_of_success attempts rc i rc 0 st none 0 0 b
    (fun j hj => by simpa using hcont j hj) (by simpa using hsucc) hlt
  unfold refreshFitbitToken
  constructor
  · intro hnone
    rw [h, hnone]
  · intro t ht
    rw [h, ht]

/-- Claim C10 witness: the theorem applied to a run whose first attempt is a
network error and whose second attempt is a 200 body without refresh_token;
the state is unchanged. -/
theorem claim_C10_witness :
    (refreshFitbitToken
        (fun i => if i = 0 then .netErr "x"
          else .resp 200 (some ⟨some "A", none, none⟩)) 3 ⟨"R", "R"⟩).state =
      ⟨"R", "R"⟩ := by
  have h := claim_C10
    (fun i => if i = 0 then .netErr "x"
      else .resp 200 (some ⟨some "A", none, none⟩)) 3 ⟨"R", "R"⟩ 1
    ⟨some "A", none, none⟩ (by omega)
    (fun j hj => by
      have hj0 : j = 0 := by omega
      subst hj0
      decide)
    (by decide)
  exact h.1 rfl

/-- Claim C6 counterexample (claim as stated is false): a 500 response whose
JSON body carries an empty errors array is a non-200 response that is neither
invalid_grant nor invalid_client, yet the refresh is not retried: the
subscript errors[0] raises an uncaught IndexError after a single network call
and no delay. -/
theorem claim_C6_counterexample :
    refreshFitbitToken (fun _ => .resp 500 (some ⟨none, none, some []⟩)) 3
        ⟨"R", "R"⟩ =
      ⟨.error .indexError, ⟨"R", "R"⟩, 1, 0⟩ := by decide

/-- Claim C6 as amended: with the default configuration, transient outcomes
(network failures, unparseable non-200 bodies, and non-200 responses other
than invalid_grant and invalid_client whose errors array, when present, is
non-empty) are retried up to 3 attempts, with a delay after each attempt but
the last; if the first two attempts are transient and the third is a 200
carrying an access token, the refresh succeeds after exactly 3 network calls
and 2 delays; if all three attempts are transient, 3 calls and 2 delays are
made and the last error is surfaced.  A non-200 response with an empty errors
array instead raises an uncaught IndexError immediately. -/
theorem claim_C6_amended (attempts : Nat → TokenAttempt) (st : RefreshState)
    (h0 : transientAttempt (attempts 0) = true)
    (h1 : transientAttempt (attempts 1) = true) :
    (∀ (b : TokenBody) (a : String),
      attempts 2 = .resp 200 (some b) → b.access_token = some a →
      (refreshFitbitToken attempts 3 st).outcome = .ok a ∧
      (refreshFitbitToken attempts 3 st).calls = 3 ∧
      (refreshFitbitToken attempts 3 st).sleeps = 2) ∧
    (transientAttempt (attempts 2) = true →
      (refreshFitbitToken attempts 3 st).calls = 3 ∧
      (refreshFitbitToken attempts 3 st).sleeps = 2 ∧
      (refreshFitbitToken attempts 3 st).outcome = lastAttemptError (attempts 2)) ∧
    (refreshFitbitToken attempts 3 st).calls ≤ 3 := by
  have hc0 := transient_continues _ h0
  have hc1 := transient_continues _ h1
  have hstep : refreshFitbitToken attempts 3 st =
      refreshGo attempts 3 1 2 st (stepLastErr (attempts 1)) 2 2 := by
    unfold refreshFitbitToken
    rw [show (3 : Nat) = 2 + 1 from rfl]
    rw [refreshGo_continue_step attempts 3 2 0 st none 0 0 hc0]
    rw [show (2 : Nat) = 1 + 1 from rfl]
    rw [refreshGo_continue_step attempts 3 1 1 st (stepLastErr (attempts 0)) 1
      (if 0 + 1 < 3 then 0 + 1 else 0) hc1]
    norm_num
  refine ⟨?_, ?_, ?_⟩
  · intro b a hsucc hat
    rw [hstep]
    rw [show (1 : Nat) = 0 + 1 from rfl]
    simp only [refreshGo, hsucc]
    cases hrt : b.refresh_token <;> simp [hrt, hat]
  · intro h2
    have hc2 := transient_continues _ h2
    rw [hstep]
    rw [show (1 : Nat) = 0 + 1 from rfl]
    rw [refreshGo_continue_step attempts 3 0 2 st (stepLastErr (attempts 1)) 2 2 hc2]
    norm_num [refreshGo, lastAttemptError]
  · rw [hstep]
    have h := refreshGo_calls_bounds attempts 3 1 2 st (stepLastErr (attempts 1)) 2 2
    omega

/-- Claim C6 witness: the amended theorem applied to a run with a network
error, then a 500 with a plain JSON body, then a 200 carrying an access
token. -/
theorem claim_C6_witness :
    (refreshFitbitToken
        (fun i => if i = 0 then .netErr "t0"
          else if i = 1 then .resp 500 (some ⟨none, none, none⟩)
          else .resp 200 (some ⟨some "AT", none, none⟩)) 3 ⟨"R", "R"⟩).outcome =
      .ok "AT" ∧
    (refreshFitbitToken
        (fun i => if i = 0 then .netErr "t0"
          else if i = 1 then .resp 500 (some ⟨none, none, none⟩)
          else .resp 200 (some ⟨some "AT", none, none⟩)) 3 ⟨"R", "R"⟩).calls = 3 ∧
    (refreshFitbitToken
        (fun i => if i = 0 then .netErr "t0"
          else if i = 1 then .resp 500 (some ⟨none, none, none⟩)
          else .resp 200 (some ⟨some "AT", none, none⟩)) 3 ⟨"R", "R"⟩).sleeps = 2 := by
  have h := claim_C6_amended
    (fun i => if i = 0 then .netErr "t0"
      else if i = 1 then .resp 500 (some ⟨none, none, none⟩)
      else .resp 200 (some ⟨some "AT", none, none⟩)) ⟨"R", "R"⟩
    (by decide) (by decide)
  exact h.1 ⟨some "AT", none, none⟩ "AT" (by decide) rfl

/-- Claim C2 counterexample (claim as stated is false): with NOTION_TOKEN
present but empty (and the other credentials valid), construction succeeds —
_validate_credentials never checks the two Notion credentials — instead of
failing before any network call; one network call is made. -/
theorem claim_C2_counterexample :
    c2Env.notion_token = some "" ∧
    missingAnyCredential c2Env = false ∧
    exceptIsOk (initTracker c2Env c2Attempts).1 = true ∧
    (initTracker c2Env c2Attempts).2 = 1 := by decide

/-- Claim C2 as amended: construction fails before any network call exactly
when one of the five variables is absent (KeyError, zero network calls).  When
all five are present but the client id or client secret is empty, or the
refresh token is empty and stays empty through the refresh (no rotation to a
non-empty token), construction still fails, but only after the token-refresh
network call has been made (at least one network call).  Present-but-empty
Notion credentials are not validated, so they alone do not make construction
fail. -/
theorem claim_C2_amended (env : Env) (attempts : Nat → TokenAttempt) :
    (missingAnyCredential env = true →
      (initTracker env attempts).2 = 0 ∧
      exceptIsOk (initTracker env attempts).1 = false) ∧
    (∀ cid cs rt nt db,
      env = ⟨some cid, some cs, some rt, some nt, some db⟩ →
      (pyStrip cid = "" ∨ pyStrip cs = "" ∨
        (pyStrip rt = "" ∧
          pyStrip (refreshFitbitToken attempts 3 ⟨rt, rt⟩).state.refreshTokenField
            = "")) →
      exceptIsOk (initTracker env attempts).1 = false ∧
      1 ≤ (initTracker env attempts).2) := by
  constructor
  · intro hmiss
    obtain ⟨f1, f2, f3, f4, f5⟩ := env
    cases f1 with
    | none => exact ⟨rfl, rfl⟩
    | some cid =>
      cases f2 with
      | none => exact ⟨rfl, rfl⟩
      | some cs =>
        cases f3 with
        | none => exact ⟨rfl, rfl⟩
        | some rt =>
          cases f4 with
          | none => exact ⟨rfl, rfl⟩
          | some nt =>
            cases f5 with
            | none => exact ⟨rfl, rfl⟩
            | some db => simp [missingAnyCredential] at hmiss
  · intro cid cs rt nt db henv hbad
    subst henv
    have hcalls := refreshGo_calls_bounds attempts 3 3 0 ⟨rt, rt⟩ none 0 0
    rcases hr : refreshFitbitToken attempts 3 ⟨rt, rt⟩ with ⟨out, stt, calls, slps⟩
    have hcalls1 : 1 ≤ calls := by
      have := hcalls.2.2 (by omega)
      rw [show refreshGo attempts 3 3 0 ⟨rt, rt⟩ none 0 0 =
        refreshFitbitToken attempts 3 ⟨rt, rt⟩ from rfl, hr] at this
      simpa using this
    simp only [initTracker, hr]
    cases out with
    | error e => exact ⟨rfl, hcalls1⟩
    | ok tok =>
      have hbad2 : pyStrip cid = "" ∨ pyStrip cs = "" ∨
          pyStrip stt.refreshTokenField = "" := by
        rcases hbad with h | h | ⟨_, h⟩
        · exact Or.inl h
        · exact Or.inr (Or.inl h)
        · rw [hr] at h
          exact Or.inr (Or.inr h)
      have hv := validate_error_of ⟨cid, cs, stt.refreshTokenField, nt, db, tok⟩
        (by simpa using hbad2)
      cases hvv : validate_credentials ⟨cid, cs, stt.refreshTokenField, nt, db, tok⟩ with
      | error e => simp only [hvv]; exact ⟨rfl, hcalls1⟩
      | ok u => rw [hvv] at hv; simp [exceptIsOk] at hv

/-- Claim C2 witness: the amended theorem applied to an environment with an
empty client id; construction fails after the one network call. -/
theorem claim_C2_witness :
    exceptIsOk (initTracker ⟨some "", some "sec", some "abcd", some "nt", some "db"⟩
        c2Attempts).1 = false ∧
    1 ≤ (initTracker ⟨some "", some "sec", some "abcd", some "nt", some "db"⟩
        c2Attempts).2 := by
  have h := claim_C2_amended ⟨some "", some "sec", some "abcd", some "nt", some "db"⟩
    c2Attempts
  exact h.2 "" "sec" "abcd" "nt" "db" rfl (Or.inl (by decide))

/-- Claim C3 counterexample (claim as stated is false): on a run whose tracker
construction raises, main catches and logs the error but does not re-raise
it, so the process exits with status zero rather than a non-zero status. -/
theorem claim_C3_counterexample :
    (mainRun c3World).caughtError = some (.keyError "FITBIT_CLIENT_ID") ∧
    (mainRun c3World).exitCode = 0 := ⟨rfl, rfl⟩

/-- Claim C3 as amended: every error that propagates out of the sync logic is
caught and logged by the top-level except clause of main and swallowed; the
process always exits with status zero, so failures are not distinguishable
from successes by the exit status. -/
theorem claim_C3_amended (w : World) : (mainRun w).exitCode = 0 := by
  unfold mainRun
  rcases h : initTracker w.env w.initAttempts with ⟨out, n⟩
  cases out with
  | error e => simp
  | ok tr => simp [processDates_exitCode]

/-- Flattening an activity record drops the date key and relabels the six
numeric fields. -/
theorem flatten_activity (a : ActivityData) :
    flattenCategory (activityItems a) =
      [("Sedentary Minutes", .numberVal (.int a.sedentary_minutes)),
       ("Lightly Active Minutes", .numberVal (.int a.lightly_active_minutes)),
       ("Fairly Active Minutes", .numberVal (.int a.fairly_active_minutes)),
       ("Very Active Minutes", .numberVal (.int a.very_active_minutes)),
       ("Steps", .numberVal (.int a.steps)),
       ("Calories", .numberVal (.int a.calories))] := rfl

/-- Flattening a sleep record drops the date key and relabels the three
numeric fields. -/
theorem flatten_sleep (s : SleepData) :
    flattenCategory (sleepItems s) =
      [("Total Minutes Asleep", .numberVal (.int s.total_minutes_asleep)),
       ("Total Sleep Records", .numberVal (.int s.total_sleep_records)),
       ("Total Time In Bed", .numberVal (.int s.total_time_in_bed))] := rfl

/-- Flattening a weight record drops the date key and relabels the three
remaining fields. -/
theorem flatten_weight (wt : WeightData) :
    flattenCategory (weightItems wt) =
      [("Weight", .numberVal (.int wt.weight)),
       ("Bmi", .numberVal (.int wt.bmi)),
       ("Log Id", .numberVal wt.log_id)] := rfl

/-- Flattening the spec-modelled heart-rate record drops the date key and
relabels the remaining fields. -/
theorem flatten_heart (h : HeartRateData) :
    flattenCategory (heartItems h) =
      ((h.fields.map (fun p => (p.1, PyVal.int p.2))).filter
          (fun p => !(p.1 = "date" : Bool))).map
        (fun p => (pyDisplayKey p.1, NotionValue.numberVal p.2)) := by
  simp [flattenCategory, heartItems]

/-- The per-date loop of main on a window whose every fetch and creation
succeeds: one row per date is created, in window order, and the run finishes
without a caught error. -/
theorem processDates_happy (w : World)
    (sed lam fam vam stp : String → Int)
    (cal sa sb sc wv wb wl : String → Option Int)
    (hf : String → List (String × Int))
    (hact : ∀ d, w.activityResult d =
      .data ⟨some ⟨some (sed d), some (lam d), some (fam d), some (vam d),
        some (stp d), cal d⟩⟩)
    (hsleep : ∀ d, w.sleepResult d = .data ⟨some ⟨sa d, sb d, sc d⟩⟩)
    (hw : ∀ d, w.weightResult d = .data ⟨[⟨wv d, wb d, wl d⟩]⟩)
    (hh : ∀ d, w.heartRateData d = some (hf d))
    (hpost : ∀ d, w.postOutcome d = true) :
    ∀ (ds : List String) (rows : List (List (String × NotionValue))),
      processDates w rows ds =
        ⟨0, rows ++ ds.map (c1Row sed lam fam vam stp cal sa sb sc wv wb wl hf),
          none⟩ := by
  intro ds
  induction ds with
  | nil => intro rows; simp [processDates]
  | cons d ds ih =>
    intro rows
    have hcomp : get_comprehensive_health_data d (w.activityResult d)
        (w.sleepResult d) (w.weightResult d) (w.heartRateData d) =
      .ok ⟨d, some ⟨d, sed d, lam d, fam d, vam d, stp d, (cal d).getD 0⟩,
        some ⟨d, (sa d).getD 0, (sb d).getD 0, (sc d).getD 0⟩,
        some ⟨d, (wv d).getD 0, (wb d).getD 0, ((wl d).map PyVal.int).getD (.str "")⟩,
        some ⟨d, hf d⟩⟩ := by
      rw [hact d, hsleep d, hw d, hh d]
      rfl
    simp only [processDates, hcomp, hpost d, if_true]
    rw [ih]
    have hprops : notionProperties
        ⟨d, some ⟨d, sed d, lam d, fam d, vam d, stp d, (cal d).getD 0⟩,
          some ⟨d, (sa d).getD 0, (sb d).getD 0, (sc d).getD 0⟩,
          some ⟨d, (wv d).getD 0, (wb d).getD 0, ((wl d).map PyVal.int).getD (.str "")⟩,
          some ⟨d, hf d⟩⟩ =
        c1Row sed lam fam vam stp cal sa sb sc wv wb wl hf d := by
      simp [notionProperties, optCategory, flatten_activity, flatten_sleep,
        flatten_weight, flatten_heart, c1Row]
    rw [hprops]
    simp

/-- Claim C1 counterexample (claim as stated is false): the trailing window is
hard-coded to 7 days, so a run with an empty destination and fully successful
fetches creates seven rows, not exactly one. -/
theorem claim_C1_counterexample :
    (mainRun c1World).createdRows.length = 7 ∧
    (mainRun c1World).createdRows.length ≠ 1 := by decide

/-- Claim C1 as amended: the trailing window is fixed at 7 days.  For a run in
which construction succeeds, the destination query returns no existing rows,
every category fetch succeeds (heart rate modelled from the spec) and every
creation succeeds, the program creates exactly one destination row per window
date — seven in total — each containing the date plus every flattened numeric
field from all four categories, and the process exits with status zero. -/
theorem claim_C1_amended (w : World) (tr : Tracker) (n : Nat)
    (sed lam fam vam stp : String → Int)
    (cal sa sb sc wv wb wl : String → Option Int)
    (hf : String → List (String × Int))
    (hinit : initTracker w.env w.initAttempts = (.ok tr, n))
    (hq : w.query = .ok [])
    (hact : ∀ d, w.activityResult d =
      .data ⟨some ⟨some (sed d), some (lam d), some (fam d), some (vam d),
        some (stp d), cal d⟩⟩)
    (hsleep : ∀ d, w.sleepResult d = .data ⟨some ⟨sa d, sb d, sc d⟩⟩)
    (hw : ∀ d, w.weightResult d = .data ⟨[⟨wv d, wb d, wl d⟩]⟩)
    (hh : ∀ d, w.heartRateData d = some (hf d))
    (hpost : ∀ d, w.postOutcome d = true) :
    (mainRun w).exitCode = 0 ∧ (mainRun w).caughtError = none ∧
    (mainRun w).createdRows =
      ((List.range 7).map (fun i => w.dayString (w.today - Int.ofNat i))).map
        (c1Row sed lam fam vam stp cal sa sb sc wv wb wl hf) ∧
    (mainRun w).createdRows.length = 7 := by
  have hmain : mainRun w =
      ⟨0, ((List.range 7).map (fun i => w.dayString (w.today - Int.ofNat i))).map
        (c1Row sed lam fam vam stp cal sa sb sc wv wb wl hf), none⟩ := by
    unfold mainRun
    rw [hinit, hq]
    dsimp only
    rw [check_existing_entries_ok_nil]
    rw [processDates_happy w sed lam fam vam stp cal sa sb sc wv wb wl hf
      hact hsleep hw hh hpost]
    simp
  rw [hmain]
  refine ⟨rfl, rfl, rfl, ?_⟩
  rw [List.length_map, List.length_map, List.length_range]

/-- Claim C1 witness: the amended theorem applied to the concrete happy-path
world; seven rows are created and the exit code is zero. -/
theorem claim_C1_witness :
    (mainRun c1World).exitCode = 0 ∧ (mainRun c1World).createdRows.length = 7 := by
  have h := claim_C1_amended c1World ⟨"id", "sec", "abcd", "nt", "db", "AT"⟩ 1
    (fun _ => 1) (fun _ => 2) (fun _ => 3) (fun _ => 4) (fun _ => 5)
    (fun _ => some 6) (fun _ => some 7) (fun _ => some 8) (fun _ => some 9)
    (fun _ => some 70) (fun _ => some 22) (fun _ => some 99)
    (fun _ => [("resting_heart_rate", 60)])
    (by decide) rfl (fun _ => rfl) (fun _ => rfl) (fun _ => rfl) (fun _ => rfl)
    (fun _ => rfl)
  exact ⟨h.1, h.2.2.2⟩

end FT
